import Mathlib

/-!
Verification development for the HIP adapter memory module
(source/adapters/hip/memory.cpp of the unified-runtime repository).

The definitions below are a shallow embedding of the functions in
memory.cpp.  Native HIP calls (hipMalloc, hipMemcpyHtoD, ...) are
modelled through explicit oracles saying whether each call succeeds,
and each embedded entry point additionally returns the ordered list of
native calls it performed, so that ordering and resource-leak
properties can be stated.  Machine size_t arithmetic is modelled as
natural numbers reduced modulo 2 ^ 64 where the source computes in
size_t.

Helper macros of the source that are declared outside this repository
slice (UR_ASSERT, UR_CHECK_ERROR) are modelled by their visible
semantics: UR_ASSERT cond err returns err when cond is false, and
UR_CHECK_ERROR throws a typed error when the native call fails.
-/

namespace UrHip

/-- Result codes of the unified-runtime API, restricted to the codes that
appear in memory.cpp. -/
inductive UrResult where
  | success
  | errorInvalidEnumeration
  | errorInvalidBufferSize
  | errorInvalidHostPtr
  | errorInvalidMemObject
  | errorInvalidValue
  | errorInvalidImageFormatDescriptor
  | errorUnsupportedEnumeration
  | errorOutOfHostMemory
  | errorOutOfResources
  | errorUnsupportedFeature
  | errorUnknown
  deriving DecidableEq, Repr

/-- Modelled from the spec: the memory creation bit flags of the runtime
API header (not under src).  The spec only requires distinct bits for the
access class and the three host-pointer policies; the numeric values follow
the runtime header convention. -/
def UR_MEM_FLAG_READ_WRITE : Nat := 1

def UR_MEM_FLAG_WRITE_ONLY : Nat := 2

def UR_MEM_FLAG_READ_ONLY : Nat := 4

def UR_MEM_FLAG_USE_HOST_POINTER : Nat := 8

def UR_MEM_FLAG_ALLOC_HOST_POINTER : Nat := 16

def UR_MEM_FLAG_ALLOC_COPY_HOST_POINTER : Nat := 32

/-- The check (flags AND UR_MEM_FLAGS_MASK) == 0 of the source accepts
exactly the flag words made of the six known bits; it is equivalent to
flags AND 63 == flags. -/
def urMemFlagsOk (flags : Nat) : Prop := flags &&& 63 = flags

instance (flags : Nat) : Decidable (urMemFlagsOk flags) := by
  unfold urMemFlagsOk; infer_instance

/-- Cardinality of the size_t type: the source computes sizes and pointer
offsets in 64-bit unsigned arithmetic. -/
def sizeTCard : Nat := 2 ^ 64

/-- Native HIP calls performed by the embedded entry points, in program
order.  Arguments record the quantities the claims talk about. -/
inductive NativeEvent where
  | hipMalloc (size : Nat)
  | hipHostMalloc (size : Nat)
  | hipHostGetDevicePointer
  | hipMemcpyHtoD (size : Nat)
  | hipStreamSynchronize
  | hipFree
  | hipHostUnregister
  | hipFreeHost
  | hipDestroySurfaceObject
  | hipFreeArray
  | hipArray3DCreate
  | hipMemcpyHtoA (size : Nat)
  | hipMemcpyParam2D (widthInBytes h : Nat)
  | hipDrvMemcpy3D (widthInBytes h d : Nat)
  | hipCreateSurfaceObject
  deriving DecidableEq, Repr

/-- Allocation modes of BufferMem (memory.hpp). -/
inductive AllocMode where
  | classic
  | copyIn
  | useHostPtr
  | allocHostPtr
  deriving DecidableEq, Repr

/-- Modelled from the spec: UR_CHECK_ERROR (ur_util.hpp, not under src)
maps a failing native call to a typed error and throws it.  The particular
code depends on the native error; it is modelled by one representative
typed error, distinct from success. -/
def nativeCallError : UrResult := .errorOutOfResources

/-- Success/failure oracle for the native calls a buffer creation may
perform, plus the success of the operator-new allocation of the memory
object itself. -/
structure BufferNativeOracle where
  hipHostMallocOk : Bool
  hostGetDevicePointerOk : Bool
  hipMallocOk : Bool
  allocObjOk : Bool
  memcpyHtoDOk : Bool
  streamSyncOk : Bool
  deriving DecidableEq, Repr

/-- The buffer object published through phBuffer, with the bookkeeping the
claims inspect. -/
structure CreatedBuffer where
  allocMode : AllocMode
  size : Nat
  deriving DecidableEq, Repr

/-- Outcome of urMemBufferCreate: the returned result code, the value
stored in phBuffer (none models both the null pointer and an untouched
output), and the native calls performed. -/
structure BufferCreateOutcome where
  result : UrResult
  phBuffer : Option CreatedBuffer
  events : List NativeEvent
  deriving DecidableEq, Repr

/-- Tail of urMemBufferCreate after the native allocation succeeded
(memory.cpp lines 146 to 167): construct the object, release it from the
unique_ptr into RetMemObj, then optionally perform the initial copy and
the stream synchronization.  A throwing copy or synchronization is caught
by the enclosing catch, after which phBuffer is still assigned RetMemObj. -/
def bufferCreateFinish (flags size : Nat) (o : BufferNativeOracle)
    (mode : AllocMode) (ev : List NativeEvent) : BufferCreateOutcome :=
  if o.allocObjOk = false then
    { result := .errorOutOfResources, phBuffer := none, events := ev }
  else
    let obj : CreatedBuffer := { allocMode := mode, size := size }
    if (flags &&& UR_MEM_FLAG_ALLOC_COPY_HOST_POINTER ≠ 0) ∨
        (flags &&& UR_MEM_FLAG_USE_HOST_POINTER ≠ 0) then
      if o.memcpyHtoDOk = false then
        { result := nativeCallError, phBuffer := some obj,
          events := ev ++ [.hipMemcpyHtoD size] }
      else if o.streamSyncOk = false then
        { result := nativeCallError, phBuffer := some obj,
          events := ev ++ [.hipMemcpyHtoD size, .hipStreamSynchronize] }
      else
        { result := .success, phBuffer := some obj,
          events := ev ++ [.hipMemcpyHtoD size, .hipStreamSynchronize] }
    else
      { result := .success, phBuffer := some obj, events := ev }

/-- Embedding of urMemBufferCreate (memory.cpp lines 101 to 178).
propsGiven models pProperties being non-null and hostGiven models
pProperties->pHost being non-null.  EnableUseHostPtr is the constant
false in the source, so the host-register branch is dead and a
USE_HOST_POINTER request also takes the plain hipMalloc path and performs
the initial copy. -/
def urMemBufferCreate (flags size : Nat) (propsGiven hostGiven : Bool)
    (o : BufferNativeOracle) : BufferCreateOutcome :=
  if ¬ urMemFlagsOk flags then
    { result := .errorInvalidEnumeration, phBuffer := none, events := [] }
  else if (flags &&& (UR_MEM_FLAG_USE_HOST_POINTER |||
      UR_MEM_FLAG_ALLOC_COPY_HOST_POINTER) ≠ 0) ∧
      ¬ (propsGiven = true ∧ hostGiven = true) then
    { result := .errorInvalidHostPtr, phBuffer := none, events := [] }
  else if size = 0 then
    { result := .errorInvalidBufferSize, phBuffer := none, events := [] }
  else if flags &&& UR_MEM_FLAG_ALLOC_HOST_POINTER ≠ 0 then
    if o.hipHostMallocOk = false then
      { result := nativeCallError, phBuffer := none,
        events := [.hipHostMalloc size] }
    else if o.hostGetDevicePointerOk = false then
      { result := nativeCallError, phBuffer := none,
        events := [.hipHostMalloc size, .hipHostGetDevicePointer] }
    else
      bufferCreateFinish flags size o .allocHostPtr
        [.hipHostMalloc size, .hipHostGetDevicePointer]
  else
    if o.hipMallocOk = false then
      { result := nativeCallError, phBuffer := none,
        events := [.hipMalloc size] }
    else
      bufferCreateFinish flags size o
        (if flags &&& UR_MEM_FLAG_ALLOC_COPY_HOST_POINTER ≠ 0 then
           .copyIn
         else .classic)
        [.hipMalloc size]

/-- Variant of a memory object: a buffer with its allocation mode, or a
surface (image).  Mirrors ur_mem_handle_t_::Type together with
BufferMem::MemAllocMode from memory.hpp, which the spec describes as a
tagged union fixed at construction. -/
inductive MemVariantKind where
  | buffer (mode : AllocMode)
  | surface
  deriving DecidableEq, Repr

/-- Modelled from the spec: the reference-counted memory object state of
memory.hpp (not under src).  ReferenceCount is a signed integer starting
at 1 on construction; isSubBuffer says whether the object is a sub-buffer
view of a parent buffer. -/
structure MemObject where
  refCount : Int
  kind : MemVariantKind
  isSubBuffer : Bool
  deriving DecidableEq, Repr

/-- Embedding of urMemRetain (memory.cpp lines 615 to 619): requires a
positive reference count, else fails with the invalid-mem-object error;
on success increments the count. -/
def urMemRetain (m : MemObject) : UrResult × MemObject :=
  if m.refCount > 0 then
    (.success, { m with refCount := m.refCount + 1 })
  else
    (.errorInvalidMemObject, m)

/-- Success oracle for the native teardown calls of urMemRelease. -/
structure TeardownOracle where
  hipFreeOk : Bool
  hostUnregisterOk : Bool
  freeHostOk : Bool
  destroySurfaceOk : Bool
  freeArrayOk : Bool
  deriving DecidableEq, Repr

/-- Outcome of urMemRelease: either the call returns a result code, with
the surviving object (none when the object was destroyed) and the native
teardown calls performed, or the process aborts through the fatal-die
path detail::ur::die. -/
inductive ReleaseOutcome where
  | returned (result : UrResult) (obj : Option MemObject)
      (events : List NativeEvent)
  | died (events : List NativeEvent)
  deriving DecidableEq, Repr

/-- Embedding of urMemRelease (memory.cpp lines 41 to 96).  The count is
decremented first; a still-positive count returns success with no other
effect.  At zero the object is owned by a unique_ptr and destroyed; a
sub-buffer performs no native deallocation; otherwise the native resource
is freed by variant and allocation mode, and any native failure is caught
and then aborts the process through detail::ur::die. -/
def urMemRelease (m : MemObject) (o : TeardownOracle) : ReleaseOutcome :=
  if m.refCount - 1 > 0 then
    .returned .success (some { m with refCount := m.refCount - 1 }) []
  else if m.isSubBuffer = true then
    .returned .success none []
  else
    match m.kind with
    | .buffer .classic =>
        if o.hipFreeOk = true then .returned .success none [.hipFree]
        else .died [.hipFree]
    | .buffer .copyIn =>
        if o.hipFreeOk = true then .returned .success none [.hipFree]
        else .died [.hipFree]
    | .buffer .useHostPtr =>
        if o.hostUnregisterOk = true then
          .returned .success none [.hipHostUnregister]
        else .died [.hipHostUnregister]
    | .buffer .allocHostPtr =>
        if o.freeHostOk = true then .returned .success none [.hipFreeHost]
        else .died [.hipFreeHost]
    | .surface =>
        if o.destroySurfaceOk = true then
          if o.freeArrayOk = true then
            .returned .success none [.hipDestroySurfaceObject, .hipFreeArray]
          else .died [.hipDestroySurfaceObject, .hipFreeArray]
        else .died [.hipDestroySurfaceObject]

/-- Teardown oracle in which every native deallocation succeeds. -/
def allOkTeardown : TeardownOracle :=
  { hipFreeOk := true, hostUnregisterOk := true, freeHostOk := true,
    destroySurfaceOk := true, freeArrayOk := true }

/-- A freshly constructed memory object: reference count 1. -/
def freshMem (kind : MemVariantKind) (sub : Bool) : MemObject :=
  { refCount := 1, kind := kind, isSubBuffer := sub }

/-- Iterate urMemRetain n times on an object. -/
def applyRetains : Nat → MemObject → MemObject
  | 0, m => m
  | n + 1, m => applyRetains n (urMemRetain m).2

/-- One urMemRelease step on an optional (alive) object: a destroyed or
died-on object becomes none. -/
def releaseStep (o : TeardownOracle) : Option MemObject → Option MemObject
  | none => none
  | some m =>
      match urMemRelease m o with
      | .returned _ obj _ => obj
      | .died _ => none

/-- Iterate urMemRelease k times. -/
def applyReleases (o : TeardownOracle) : Nat → Option MemObject → Option MemObject
  | 0, s => s
  | k + 1, s => applyReleases o k (releaseStep o s)

/-- Concrete urMemBufferCreate run for the C1 failing input: flags is
exactly ALLOC_COPY_HOST_POINTER, size 4, host pointer supplied, hipMalloc
and the object allocation succeed, hipMemcpyHtoD fails. -/
def c1FailingRun : BufferCreateOutcome :=
  urMemBufferCreate UR_MEM_FLAG_ALLOC_COPY_HOST_POINTER 4 true true
    { hipHostMallocOk := true, hostGetDevicePointerOk := true,
      hipMallocOk := true, allocObjOk := true, memcpyHtoDOk := false,
      streamSyncOk := true }

/-- Parent buffer state read by urMemBufferPartition: variant and
sub-buffer marks, creation flags, the allocation size BufferImpl.getSize
returns, the numeric device pointer (0 models the null pointer), the
optional host pointer, and the reference count. -/
structure ParentBuffer where
  isBuffer : Bool
  isSubBuffer : Bool
  memFlags : Nat
  allocSize : Nat
  ptr : Nat
  hostPtr : Option Nat
  refCount : Int
  deriving DecidableEq, Repr

/-- The child object a successful partition publishes. -/
structure SubBuffer where
  flags : Nat
  allocMode : AllocMode
  ptr : Nat
  hostPtr : Option Nat
  size : Nat
  deriving DecidableEq, Repr

/-- State of an output pointer parameter after the call: left untouched,
or written with null (none) or with an object. -/
inductive PtrWrite (α : Type) where
  | untouched
  | written (v : Option α)
  deriving DecidableEq, Repr

/-- Outcome of urMemBufferPartition: result code, the phMem output, and
the reference count of the parent after the call. -/
structure PartitionOutcome where
  result : UrResult
  phMem : PtrWrite SubBuffer
  parentRefCount : Int
  deriving DecidableEq, Repr

/-- Modelled from the spec: the only buffer-create type of the runtime
header (not under src) is the region type. -/
def UR_BUFFER_CREATE_TYPE_REGION : Nat := 0

/-- Flags actually used by the partition: a zero flags word defaults to
READ_WRITE (memory.cpp lines 192 to 195). -/
def partitionFlags (flags : Nat) : Nat :=
  if flags = 0 then UR_MEM_FLAG_READ_WRITE else flags

/-- Validation prefix of urMemBufferPartition (memory.cpp lines 187 to
223): the UR_ASSERT checks in program order, each returning its error
before phMem is touched; none means all checks passed.  The bound check
adds origin and rsize in size_t arithmetic, reduced modulo 2 ^ 64. -/
def partitionValidate (b : ParentBuffer)
    (flags bufferCreateType origin rsize : Nat) : Option UrResult :=
  if ¬ urMemFlagsOk flags then some .errorInvalidEnumeration
  else if b.isBuffer = false then some .errorInvalidMemObject
  else if b.isSubBuffer = true then some .errorInvalidMemObject
  else if partitionFlags flags &&& (UR_MEM_FLAG_ALLOC_COPY_HOST_POINTER |||
      UR_MEM_FLAG_ALLOC_HOST_POINTER ||| UR_MEM_FLAG_USE_HOST_POINTER) ≠ 0
  then some .errorInvalidValue
  else if b.memFlags &&& UR_MEM_FLAG_WRITE_ONLY ≠ 0 ∧
      partitionFlags flags &&&
        (UR_MEM_FLAG_READ_WRITE ||| UR_MEM_FLAG_READ_ONLY) ≠ 0 then
    some .errorInvalidValue
  else if b.memFlags &&& UR_MEM_FLAG_READ_ONLY ≠ 0 ∧
      partitionFlags flags &&&
        (UR_MEM_FLAG_READ_WRITE ||| UR_MEM_FLAG_WRITE_ONLY) ≠ 0 then
    some .errorInvalidValue
  else if bufferCreateType ≠ UR_BUFFER_CREATE_TYPE_REGION then
    some .errorInvalidEnumeration
  else if rsize = 0 then some .errorInvalidBufferSize
  else if ¬ ((origin + rsize) % sizeTCard ≤ b.allocSize) then
    some .errorInvalidBufferSize
  else if b.ptr = 0 then some .errorInvalidMemObject
  else none

/-- Embedding of urMemBufferPartition (memory.cpp lines 183 to 250).
size_t additions (the bound check and the pointer offsets) are reduced
modulo 2 ^ 64.  allocObjOk models the success of constructing the child
object (the operator-new allocation together with the scoped-context
activation inside the try block).

Modelled from the spec: the child constructor (memory.hpp, not under src)
retains the parent for the lifetime of the child, and ReleaseGuard
(common.hpp, not under src) undoes that implicit retain on any
construction failure before the error is returned, so a failed
construction leaves the parent count unchanged and a successful one
leaves it one higher. -/
def urMemBufferPartition (b : ParentBuffer)
    (flags bufferCreateType origin rsize : Nat)
    (allocObjOk : Bool) : PartitionOutcome :=
  match partitionValidate b flags bufferCreateType origin rsize with
  | some e =>
      { result := e, phMem := .untouched, parentRefCount := b.refCount }
  | none =>
      if allocObjOk = true then
        { result := .success,
          phMem := .written (some
            { flags := partitionFlags flags, allocMode := .classic,
              ptr := (b.ptr + origin) % sizeTCard,
              hostPtr := b.hostPtr.map (fun h => (h + origin) % sizeTCard),
              size := rsize }),
          parentRefCount := b.refCount + 1 }
      else
        { result := .errorOutOfHostMemory, phMem := .written none,
          parentRefCount := b.refCount }

/-- A well-formed read-write parent buffer of allocation size 4 used by
the C5 counterexample. -/
def c5Parent : ParentBuffer :=
  { isBuffer := true, isSubBuffer := false,
    memFlags := UR_MEM_FLAG_READ_WRITE, allocSize := 4, ptr := 1000,
    hostPtr := none, refCount := 1 }

/-- Modelled from the spec: the supported image dimensionalities (1D, 2D,
3D).  The runtime header enumeration ur_mem_type_t is not under src; the
spec models dimensionality as 1D/2D/3D, fixed at construction. -/
inductive ImgDim where
  | one
  | two
  | three
  deriving DecidableEq, Repr

/-- Modelled from the spec: image channel orders of the runtime header
(not under src); rgba is the only supported order, the others are
representatives of the remaining enumeration values. -/
inductive ChannelOrder where
  | rgba
  | bgra
  | argb
  | rg
  | r
  deriving DecidableEq, Repr

/-- Modelled from the spec: image channel data types of the runtime
header (not under src): the ten types the source switch handles plus the
snorm types as representatives of the unmapped values. -/
inductive ChannelType where
  | unormInt8
  | snormInt8
  | unsignedInt8
  | signedInt8
  | unormInt16
  | snormInt16
  | unsignedInt16
  | signedInt16
  | halfFloat
  | unsignedInt32
  | signedInt32
  | float32
  deriving DecidableEq, Repr

/-- The eight supported native pixel formats (hipArray_Format values the
source produces). -/
inductive HipArrayFormat where
  | unsignedInt8
  | signedInt8
  | unsignedInt16
  | signedInt16
  | half
  | unsignedInt32
  | signedInt32
  | float32
  deriving DecidableEq, Repr

/-- The channel-type switch of urMemImageCreate (memory.cpp lines 415 to
454): maps a channel type to the native format and the per-channel byte
size, or none for the default branch (unsupported type). -/
def channelTypeMap : ChannelType → Option (HipArrayFormat × Nat)
  | .unormInt8 => some (.unsignedInt8, 1)
  | .unsignedInt8 => some (.unsignedInt8, 1)
  | .signedInt8 => some (.signedInt8, 1)
  | .unormInt16 => some (.unsignedInt16, 2)
  | .unsignedInt16 => some (.unsignedInt16, 2)
  | .signedInt16 => some (.signedInt16, 2)
  | .halfFloat => some (.half, 2)
  | .unsignedInt32 => some (.unsignedInt32, 4)
  | .signedInt32 => some (.signedInt32, 4)
  | .float32 => some (.float32, 4)
  | .snormInt8 => none
  | .snormInt16 => none

/-- The image descriptor fields urMemImageCreate reads.  stypeOk models
the structure-tag check stype == UR_STRUCTURE_TYPE_IMAGE_DESC. -/
structure ImageDesc where
  stypeOk : Bool
  dim : ImgDim
  width : Nat
  height : Nat
  depth : Nat
  numMipLevel : Nat
  numSamples : Nat
  rowPitch : Nat
  slicePitch : Nat
  deriving DecidableEq, Repr

/-- The HIP_ARRAY3D_DESCRIPTOR fields the source fills or reads. -/
structure HipArrayDescriptor where
  NumChannels : Nat
  Flags : Nat
  Width : Nat
  Height : Nat
  Depth : Nat
  Format : HipArrayFormat
  deriving DecidableEq, Repr

/-- The native array descriptor built at memory.cpp lines 397 to 410:
channel count fixed at 4, no flags, width always the descriptor width,
height and depth zeroed below the dimensionality. -/
def buildArrayDescriptor (desc : ImageDesc) (fmt : HipArrayFormat) :
    HipArrayDescriptor :=
  match desc.dim with
  | .one =>
      { NumChannels := 4, Flags := 0, Width := desc.width, Height := 0,
        Depth := 0, Format := fmt }
  | .two =>
      { NumChannels := 4, Flags := 0, Width := desc.width,
        Height := desc.height, Depth := 0, Format := fmt }
  | .three =>
      { NumChannels := 4, Flags := 0, Width := desc.width,
        Height := desc.height, Depth := desc.depth, Format := fmt }

/-- Success oracle for the native calls of urMemImageCreate, plus the
operator-new allocation of the memory object. -/
structure ImageNativeOracle where
  arrayCreateOk : Bool
  copyOk : Bool
  surfaceCreateOk : Bool
  allocObjOk : Bool
  deriving DecidableEq, Repr

/-- Outcome of urMemImageCreate: the result code, the array descriptor
passed to hipArray3DCreate (none when validation failed before array
creation was attempted), and the native calls performed. -/
structure ImageCreateOutcome where
  result : UrResult
  arrayDesc : Option HipArrayDescriptor
  events : List NativeEvent
  deriving DecidableEq, Repr

/-- Validation prefix of urMemImageCreate (memory.cpp lines 361 to 392):
the UR_ASSERT checks in program order.  The range check on the descriptor
type is always satisfied in this model because ImgDim only carries the
supported dimensionalities. -/
def imageValidate (flags : Nat) (order : ChannelOrder) (desc : ImageDesc)
    (hostGiven : Bool) : Option UrResult :=
  if ¬ urMemFlagsOk flags then some .errorInvalidEnumeration
  else if flags &&& (UR_MEM_FLAG_ALLOC_COPY_HOST_POINTER |||
      UR_MEM_FLAG_USE_HOST_POINTER) ≠ 0 ∧ hostGiven = false then
    some .errorInvalidHostPtr
  else if desc.stypeOk = false then
    some .errorInvalidImageFormatDescriptor
  else if desc.numMipLevel ≠ 0 then
    some .errorInvalidImageFormatDescriptor
  else if desc.numSamples ≠ 0 then
    some .errorInvalidImageFormatDescriptor
  else if hostGiven = false ∧ desc.rowPitch ≠ 0 then
    some .errorInvalidImageFormatDescriptor
  else if hostGiven = false ∧ desc.slicePitch ≠ 0 then
    some .errorInvalidImageFormatDescriptor
  else if order ≠ ChannelOrder.rgba then
    some .errorUnsupportedEnumeration
  else none

/-- Embedding of urMemImageCreate (memory.cpp lines 355 to 526).  After
validation, the channel-type switch either fails with the
invalid-image-format-descriptor error or yields the native format; then
the array is created, the optional initial copy is dispatched by
dimensionality (1D linear copy of the full image size; 2D and 3D strided
copies with width in bytes = pixel size x 4 channels x width), the
surface object is created and the memory object constructed.  Failures
after array creation destroy the array before returning. -/
def urMemImageCreate (flags : Nat) (order : ChannelOrder)
    (ctype : ChannelType) (desc : ImageDesc) (hostGiven : Bool)
    (o : ImageNativeOracle) : ImageCreateOutcome :=
  match imageValidate flags order desc hostGiven with
  | some e => { result := e, arrayDesc := none, events := [] }
  | none =>
      match channelTypeMap ctype with
      | none =>
          { result := .errorInvalidImageFormatDescriptor,
            arrayDesc := none, events := [] }
      | some (fmt, ptsize) =>
          let ad := buildArrayDescriptor desc fmt
          let pixelSizeBytes := ptsize * 4
          let imageSizeBytes :=
            pixelSizeBytes * desc.width * desc.height * desc.depth
          if o.arrayCreateOk = false then
            { result := nativeCallError, arrayDesc := some ad,
              events := [.hipArray3DCreate] }
          else if (flags &&& UR_MEM_FLAG_ALLOC_COPY_HOST_POINTER ≠ 0) ∨
              (flags &&& UR_MEM_FLAG_USE_HOST_POINTER ≠ 0) then
            let copyEv : NativeEvent :=
              match desc.dim with
              | .one => .hipMemcpyHtoA imageSizeBytes
              | .two =>
                  .hipMemcpyParam2D (pixelSizeBytes * desc.width)
                    desc.height
              | .three =>
                  .hipDrvMemcpy3D (pixelSizeBytes * desc.width)
                    desc.height desc.depth
            if o.copyOk = false then
              { result := nativeCallError, arrayDesc := some ad,
                events := [.hipArray3DCreate, copyEv, .hipFreeArray] }
            else if o.surfaceCreateOk = false then
              { result := nativeCallError, arrayDesc := some ad,
                events := [.hipArray3DCreate, copyEv,
                  .hipCreateSurfaceObject, .hipFreeArray] }
            else if o.allocObjOk = false then
              { result := .errorUnknown, arrayDesc := some ad,
                events := [.hipArray3DCreate, copyEv,
                  .hipCreateSurfaceObject, .hipFreeArray] }
            else
              { result := .success, arrayDesc := some ad,
                events := [.hipArray3DCreate, copyEv,
                  .hipCreateSurfaceObject] }
          else
            if o.surfaceCreateOk = false then
              { result := nativeCallError, arrayDesc := some ad,
                events := [.hipArray3DCreate, .hipCreateSurfaceObject,
                  .hipFreeArray] }
            else if o.allocObjOk = false then
              { result := .errorUnknown, arrayDesc := some ad,
                events := [.hipArray3DCreate, .hipCreateSurfaceObject,
                  .hipFreeArray] }
            else
              { result := .success, arrayDesc := some ad,
                events := [.hipArray3DCreate, .hipCreateSurfaceObject] }

/-- GetHipFormatPixelSize (memory.cpp lines 18 to 34): per-channel byte
size of a native pixel format.  The source default branch dies on an
invalid format; HipArrayFormat carries exactly the eight valid formats,
so that branch is unreachable here. -/
def GetHipFormatPixelSize : HipArrayFormat → Nat
  | .unsignedInt8 => 1
  | .signedInt8 => 1
  | .unsignedInt16 => 2
  | .signedInt16 => 2
  | .half => 2
  | .unsignedInt32 => 4
  | .signedInt32 => 4
  | .float32 => 4

/-- The variant of the memory object urMemGetInfo visits: a buffer with
its device pointer or a surface with its native array handle, both as
opaque numeric identities. -/
inductive MemContent where
  | buffer (ptr : Nat)
  | surface (arr : Nat)
  deriving DecidableEq, Repr

/-- Results of the native queries the size query performs:
hipMemGetAddressRange for a buffer (none models a failing call) and
hipArray3DGetDescriptor for a surface. -/
structure QueryOracle where
  addressRangeSize : Option Nat
  arrayDescriptor : Option HipArrayDescriptor
  deriving DecidableEq, Repr

/-- The UR_MEM_INFO_SIZE branch of urMemGetInfo (memory.cpp lines 266 to
299): a buffer returns the actual address-range size of its native
allocation; a surface reads the array descriptor back and returns
pixel size x channel count x each dimension, with a zero dimension
replaced by 1.  A failing native query is caught and returned as the
typed error. -/
def urMemGetInfoSize (m : MemContent) (o : QueryOracle) :
    Except UrResult Nat :=
  match m with
  | .buffer _ =>
      match o.addressRangeSize with
      | some s => .ok s
      | none => .error nativeCallError
  | .surface _ =>
      match o.arrayDescriptor with
      | some d =>
          .ok (GetHipFormatPixelSize d.Format * d.NumChannels *
            (if d.Width = 0 then 1 else d.Width) *
            (if d.Height = 0 then 1 else d.Height) *
            (if d.Depth = 0 then 1 else d.Depth))
      | none => .error nativeCallError

theorem applyRetains_count (n : Nat) (c : Int) (kind : MemVariantKind)
    (sub : Bool) (hc : 0 < c) :
    applyRetains n ⟨c, kind, sub⟩ = ⟨c + n, kind, sub⟩ := by
  induction n generalizing c with
  | zero => simp [applyRetains]
  | succ n ih =>
      have h1 : urMemRetain ⟨c, kind, sub⟩ =
          (.success, ⟨c + 1, kind, sub⟩) := by
        simp [urMemRetain, hc]
      have h2 := ih (c + 1) (by omega)
      simp only [applyRetains, h1]
      rw [h2]
      simp only [MemObject.mk.injEq, and_true]
      push_cast
      ring

theorem applyReleases_none (o : TeardownOracle) (k : Nat) :
    applyReleases o k none = none := by
  induction k with
  | zero => rfl
  | succ k ih => simpa [applyReleases, releaseStep] using ih

theorem releaseStep_last (kind : MemVariantKind) (sub : Bool) :
    releaseStep allOkTeardown (some ⟨1, kind, sub⟩) = none := by
  cases kind with
  | buffer mode => cases mode <;> cases sub <;> rfl
  | surface => cases sub <;> rfl

theorem applyReleases_count (k : Nat) (c : Int) (kind : MemVariantKind)
    (sub : Bool) (hc : 1 ≤ c) :
    applyReleases allOkTeardown k (some ⟨c, kind, sub⟩) =
      if (k : Int) < c then some ⟨c - k, kind, sub⟩ else none := by
  induction k generalizing c with
  | zero =>
      simp [applyReleases]
      omega
  | succ k ih =>
      by_cases h1 : c - 1 > 0
      · have hstep : releaseStep allOkTeardown (some ⟨c, kind, sub⟩) =
            some ⟨c - 1, kind, sub⟩ := by
          simp [releaseStep, urMemRelease, h1]
        rw [applyReleases, hstep, ih (c - 1) (by omega)]
        by_cases h2 : (k : Int) < c - 1
        · rw [if_pos h2, if_pos (by push_cast; omega)]
          simp only [Option.some.injEq, MemObject.mk.injEq, and_true]
          push_cast
          ring
        · rw [if_neg h2, if_neg (by push_cast; omega)]
      · have hc1 : c = 1 := by omega
        subst hc1
        rw [applyReleases, releaseStep_last, applyReleases_none,
          if_neg (by push_cast; omega)]

theorem partitionValidate_none (b : ParentBuffer)
    (flags bct origin rsize : Nat)
    (hmask : urMemFlagsOk flags)
    (hbuf : b.isBuffer = true) (hsub : b.isSubBuffer = false)
    (hhf : partitionFlags flags &&& (UR_MEM_FLAG_ALLOC_COPY_HOST_POINTER |||
      UR_MEM_FLAG_ALLOC_HOST_POINTER ||| UR_MEM_FLAG_USE_HOST_POINTER) = 0)
    (hwo : ¬ (b.memFlags &&& UR_MEM_FLAG_WRITE_ONLY ≠ 0 ∧
      partitionFlags flags &&&
        (UR_MEM_FLAG_READ_WRITE ||| UR_MEM_FLAG_READ_ONLY) ≠ 0))
    (hro : ¬ (b.memFlags &&& UR_MEM_FLAG_READ_ONLY ≠ 0 ∧
      partitionFlags flags &&&
        (UR_MEM_FLAG_READ_WRITE ||| UR_MEM_FLAG_WRITE_ONLY) ≠ 0))
    (hbct : bct = UR_BUFFER_CREATE_TYPE_REGION)
    (hsize : rsize ≠ 0)
    (hbound : (origin + rsize) % sizeTCard ≤ b.allocSize)
    (hptr : b.ptr ≠ 0) :
    partitionValidate b flags bct origin rsize = none := by
  subst hbct
  unfold partitionValidate
  rw [if_neg (not_not_intro hmask), if_neg (by simp [hbuf]),
    if_neg (by simp [hsub]), if_neg (not_not_intro hhf), if_neg hwo,
    if_neg hro, if_neg (not_not_intro rfl), if_neg hsize,
    if_neg (not_not_intro hbound), if_neg hptr]

theorem partitionValidate_boundFail (b : ParentBuffer)
    (flags bct origin rsize : Nat)
    (hmask : urMemFlagsOk flags)
    (hbuf : b.isBuffer = true) (hsub : b.isSubBuffer = false)
    (hhf : partitionFlags flags &&& (UR_MEM_FLAG_ALLOC_COPY_HOST_POINTER |||
      UR_MEM_FLAG_ALLOC_HOST_POINTER ||| UR_MEM_FLAG_USE_HOST_POINTER) = 0)
    (hwo : ¬ (b.memFlags &&& UR_MEM_FLAG_WRITE_ONLY ≠ 0 ∧
      partitionFlags flags &&&
        (UR_MEM_FLAG_READ_WRITE ||| UR_MEM_FLAG_READ_ONLY) ≠ 0))
    (hro : ¬ (b.memFlags &&& UR_MEM_FLAG_READ_ONLY ≠ 0 ∧
      partitionFlags flags &&&
        (UR_MEM_FLAG_READ_WRITE ||| UR_MEM_FLAG_WRITE_ONLY) ≠ 0))
    (hbct : bct = UR_BUFFER_CREATE_TYPE_REGION)
    (hsize : rsize ≠ 0)
    (hbound : ¬ ((origin + rsize) % sizeTCard ≤ b.allocSize)) :
    partitionValidate b flags bct origin rsize =
      some .errorInvalidBufferSize := by
  subst hbct
  unfold partitionValidate
  rw [if_neg (not_not_intro hmask), if_neg (by simp [hbuf]),
    if_neg (by simp [hsub]), if_neg (not_not_intro hhf), if_neg hwo,
    if_neg hro, if_neg (not_not_intro rfl), if_neg hsize, if_pos hbound]

theorem partitionValidate_sizeZero (b : ParentBuffer)
    (flags bct origin : Nat)
    (hmask : urMemFlagsOk flags)
    (hbuf : b.isBuffer = true) (hsub : b.isSubBuffer = false)
    (hhf : partitionFlags flags &&& (UR_MEM_FLAG_ALLOC_COPY_HOST_POINTER |||
      UR_MEM_FLAG_ALLOC_HOST_POINTER ||| UR_MEM_FLAG_USE_HOST_POINTER) = 0)
    (hwo : ¬ (b.memFlags &&& UR_MEM_FLAG_WRITE_ONLY ≠ 0 ∧
      partitionFlags flags &&&
        (UR_MEM_FLAG_READ_WRITE ||| UR_MEM_FLAG_READ_ONLY) ≠ 0))
    (hro : ¬ (b.memFlags &&& UR_MEM_FLAG_READ_ONLY ≠ 0 ∧
      partitionFlags flags &&&
        (UR_MEM_FLAG_READ_WRITE ||| UR_MEM_FLAG_WRITE_ONLY) ≠ 0))
    (hbct : bct = UR_BUFFER_CREATE_TYPE_REGION) :
    partitionValidate b flags bct origin 0 =
      some .errorInvalidBufferSize := by
  subst hbct
  unfold partitionValidate
  rw [if_neg (not_not_intro hmask), if_neg (by simp [hbuf]),
    if_neg (by simp [hsub]), if_neg (not_not_intro hhf), if_neg hwo,
    if_neg hro, if_neg (not_not_intro rfl), if_pos rfl]

theorem urMemImageCreate_arrayDesc_cases (flags : Nat)
    (order : ChannelOrder) (ctype : ChannelType) (desc : ImageDesc)
    (hostGiven : Bool) (o : ImageNativeOracle) :
    (urMemImageCreate flags order ctype desc hostGiven o).arrayDesc =
      none ∨
    ∃ fmt psz, channelTypeMap ctype = some (fmt, psz) ∧
      (urMemImageCreate flags order ctype desc hostGiven o).arrayDesc =
        some (buildArrayDescriptor desc fmt) := by
  unfold urMemImageCreate
  rcases imageValidate flags order desc hostGiven with _ | e
  · rcases hct : channelTypeMap ctype with _ | ⟨fmt, psz⟩
    · left; rfl
    · right
      refine ⟨fmt, psz, rfl, ?_⟩
      split_ifs <;> rfl
  · left; rfl

theorem ite_zero_one_eq_max (n : Nat) :
    (if n = 0 then 1 else n) = max 1 n := by
  cases n with
  | zero => simp
  | succ k => simp

/-- C1: the claim states that when urMemBufferCreate fails after native
memory was acquired (in particular a failing initial host-to-device copy
after a successful hipMalloc), the allocation is released before the
error returns and phBuffer is not set to a live object.  The code does
the opposite on this path: it releases the object out of its unique_ptr
before the copy, so a failing copy returns a typed error while phBuffer
is assigned the live object and no hipFree is ever performed. -/
theorem c1_create_failure_publishes_and_leaks :
    c1FailingRun.result = nativeCallError ∧
    c1FailingRun.result ≠ .success ∧
    c1FailingRun.phBuffer = some ⟨.copyIn, 4⟩ ∧
    c1FailingRun.events = [.hipMalloc 4, .hipMemcpyHtoD 4] ∧
    NativeEvent.hipFree ∉ c1FailingRun.events := by
  refine ⟨rfl, by decide, rfl, rfl, by decide⟩

/-- C2: urMemRelease decrements the count; still-positive counts return
success with no side effects; a count reaching zero destroys the object,
with no native deallocation for a sub-buffer, and otherwise frees the
native resource by variant and allocation mode; any native failure during
this teardown aborts through the fatal-die path instead of returning an
error. -/
theorem c2_release_dispatch (m : MemObject) (o : TeardownOracle) :
    (m.refCount - 1 > 0 →
      urMemRelease m o =
        .returned .success (some { m with refCount := m.refCount - 1 }) []) ∧
    (m.refCount - 1 ≤ 0 → m.isSubBuffer = true →
      urMemRelease m o = .returned .success none []) ∧
    (m.refCount - 1 ≤ 0 → m.isSubBuffer = false →
      (((m.kind = .buffer .classic ∨ m.kind = .buffer .copyIn) →
         urMemRelease m o =
           if o.hipFreeOk = true then .returned .success none [.hipFree]
           else .died [.hipFree]) ∧
       (m.kind = .buffer .useHostPtr →
         urMemRelease m o =
           if o.hostUnregisterOk = true then
             .returned .success none [.hipHostUnregister]
           else .died [.hipHostUnregister]) ∧
       (m.kind = .buffer .allocHostPtr →
         urMemRelease m o =
           if o.freeHostOk = true then .returned .success none [.hipFreeHost]
           else .died [.hipFreeHost]) ∧
       (m.kind = .surface →
         urMemRelease m o =
           if o.destroySurfaceOk = true then
             if o.freeArrayOk = true then
               .returned .success none
                 [.hipDestroySurfaceObject, .hipFreeArray]
             else .died [.hipDestroySurfaceObject, .hipFreeArray]
           else .died [.hipDestroySurfaceObject]))) := by
  refine ⟨?_, ?_, ?_⟩
  · intro h
    simp [urMemRelease, h]
  · intro h hsub
    have h' : ¬ (m.refCount - 1 > 0) := by omega
    simp [urMemRelease, h', hsub]
  · intro h hsub
    have h' : ¬ (m.refCount - 1 > 0) := by omega
    refine ⟨?_, ?_, ?_, ?_⟩
    · rintro (hk | hk) <;> simp [urMemRelease, h', hsub, hk]
    · intro hk
      simp [urMemRelease, h', hsub, hk]
    · intro hk
      simp [urMemRelease, h', hsub, hk]
    · intro hk
      simp [urMemRelease, h', hsub, hk]

theorem c2_release_dispatch_witness :
    urMemRelease ⟨2, .buffer .classic, false⟩ allOkTeardown =
      .returned .success (some ⟨1, .buffer .classic, false⟩) [] := by
  have h := (c2_release_dispatch ⟨2, .buffer .classic, false⟩
    allOkTeardown).1 (by decide)
  simpa using h

/-- C3 counterexample: the claim says that on a freshly created object
(count 1) N retains followed by N releases destroy the object on the Nth
release.  At N = 1 the code leaves the object alive with count 1 after
the single release, so the claim as stated is false. -/
theorem c3_counterexample :
    applyReleases allOkTeardown 1
        (some (applyRetains 1 (freshMem (.buffer .classic) false))) =
      some ⟨1, .buffer .classic, false⟩ ∧
    ¬ (applyReleases allOkTeardown 1
        (some (applyRetains 1 (freshMem (.buffer .classic) false))) =
      none) := by
  constructor <;> decide

/-- C3 amended: on a freshly created object (count 1), N retains bring the
count to 1 + N; the following releases keep the object alive with count
1 + N - k after k releases for every k up to N, so the count stays
positive and is never negative; the object is destroyed on exactly the
(N + 1)-th release and stays destroyed afterwards (teardown happens
once); and urMemRetain on an object whose count is not positive fails
with the invalid-mem-object error. -/
theorem c3_amended_balance (N : Nat) (kind : MemVariantKind) (sub : Bool) :
    (applyRetains N (freshMem kind sub) = ⟨1 + N, kind, sub⟩) ∧
    (∀ k : Nat, k ≤ N →
      applyReleases allOkTeardown k
          (some (applyRetains N (freshMem kind sub))) =
        some ⟨1 + (N : Int) - k, kind, sub⟩) ∧
    (∀ j : Nat,
      applyReleases allOkTeardown (N + 1 + j)
          (some (applyRetains N (freshMem kind sub))) = none) ∧
    (∀ m : MemObject, m.refCount ≤ 0 →
      urMemRetain m = (.errorInvalidMemObject, m)) := by
  have hret : applyRetains N (freshMem kind sub) = ⟨1 + N, kind, sub⟩ := by
    have := applyRetains_count N 1 kind sub (by omega)
    simpa [freshMem] using this
  refine ⟨hret, ?_, ?_, ?_⟩
  · intro k hk
    rw [hret, applyReleases_count k (1 + N) kind sub (by omega),
      if_pos (by omega)]
  · intro j
    rw [hret, applyReleases_count (N + 1 + j) (1 + N) kind sub (by omega),
      if_neg (by push_cast; omega)]
  · intro m hm
    have h' : ¬ (m.refCount > 0) := by omega
    simp [urMemRetain, h']

theorem c3_amended_balance_witness :
    applyReleases allOkTeardown 1
        (some (applyRetains 2 (freshMem (.buffer .classic) false))) =
      some ⟨2, .buffer .classic, false⟩ := by
  have h := (c3_amended_balance 2 (.buffer .classic) false).2.1 1 (by omega)
  simpa using h

/-- C4: with the copy-host-pointer flag set (and neither host-pointer
allocation flag), a successful urMemBufferCreate allocates device memory,
constructs the object in CopyIn mode, performs the full-size synchronous
host-to-device copy immediately after construction, and then waits on the
stream; both native calls appear, in that order, in the calls completed
before the creation returns. -/
theorem c4_copy_in_copies_then_syncs (flags size : Nat)
    (propsGiven hostGiven : Bool) (o : BufferNativeOracle)
    (hmask : urMemFlagsOk flags)
    (hcopy : flags &&& UR_MEM_FLAG_ALLOC_COPY_HOST_POINTER ≠ 0)
    (halloc : flags &&& UR_MEM_FLAG_ALLOC_HOST_POINTER = 0)
    (hprops : propsGiven = true) (hhost : hostGiven = true)
    (hsize : size ≠ 0)
    (h1 : o.hipMallocOk = true) (h2 : o.allocObjOk = true)
    (h3 : o.memcpyHtoDOk = true) (h4 : o.streamSyncOk = true) :
    urMemBufferCreate flags size propsGiven hostGiven o =
      { result := .success, phBuffer := some ⟨.copyIn, size⟩,
        events := [.hipMalloc size, .hipMemcpyHtoD size,
          .hipStreamSynchronize] } := by
  simp [urMemBufferCreate, bufferCreateFinish, hmask, hcopy, halloc,
    hprops, hhost, hsize, h1, h2, h3, h4]

theorem c4_copy_in_copies_then_syncs_witness :
    urMemBufferCreate UR_MEM_FLAG_ALLOC_COPY_HOST_POINTER 1024 true true
        { hipHostMallocOk := true, hostGetDevicePointerOk := true,
          hipMallocOk := true, allocObjOk := true, memcpyHtoDOk := true,
          streamSyncOk := true } =
      { result := .success, phBuffer := some ⟨.copyIn, 1024⟩,
        events := [.hipMalloc 1024, .hipMemcpyHtoD 1024,
          .hipStreamSynchronize] } := by
  exact c4_copy_in_copies_then_syncs UR_MEM_FLAG_ALLOC_COPY_HOST_POINTER
    1024 true true _ (by decide) (by decide) (by decide) rfl rfl
    (by decide) rfl rfl rfl rfl

/-- C5 counterexample: the claim says every region whose origin plus size
exceeds the parent allocation size in exact unbounded arithmetic fails
with the invalid-buffer-size error.  The source compares
origin + size in size_t arithmetic, so with origin = 2 ^ 64 - 1 and
size = 2 the sum wraps to 1, the check passes against a parent of size 4,
and the partition succeeds even though the exact sum exceeds 4. -/
theorem c5_counterexample :
    (urMemBufferPartition c5Parent UR_MEM_FLAG_READ_WRITE
        UR_BUFFER_CREATE_TYPE_REGION (sizeTCard - 1) 2 true).result =
      .success ∧
    sizeTCard - 1 + 2 > c5Parent.allocSize := by
  constructor <;> decide

/-- C5 amended: the bound check of urMemBufferPartition compares
(origin + size) reduced modulo 2 ^ 64 against the parent allocation size
S.  For a valid non-sub-buffer read-write parent: the full region
(origin 0, size S) succeeds; a region of size 0 fails with the
invalid-buffer-size error; every region whose reduced sum exceeds S, and
in particular every region whose exact sum exceeds S without overflowing
2 ^ 64, fails with the invalid-buffer-size error; and the region
(origin S - 1, size 2) fails with the invalid-buffer-size error whenever
S + 1 does not overflow. -/
theorem c5_amended_partition_bounds (b : ParentBuffer) (origin rsize : Nat)
    (hbuf : b.isBuffer = true) (hsub : b.isSubBuffer = false)
    (hwo : b.memFlags &&& UR_MEM_FLAG_WRITE_ONLY = 0)
    (hro : b.memFlags &&& UR_MEM_FLAG_READ_ONLY = 0)
    (hptr : b.ptr ≠ 0) :
    (b.allocSize ≠ 0 → b.allocSize < sizeTCard →
      (urMemBufferPartition b UR_MEM_FLAG_READ_WRITE
          UR_BUFFER_CREATE_TYPE_REGION 0 b.allocSize true).result =
        .success) ∧
    ((urMemBufferPartition b UR_MEM_FLAG_READ_WRITE
        UR_BUFFER_CREATE_TYPE_REGION origin 0 true).result =
      .errorInvalidBufferSize) ∧
    (rsize ≠ 0 → b.allocSize < (origin + rsize) % sizeTCard →
      (urMemBufferPartition b UR_MEM_FLAG_READ_WRITE
          UR_BUFFER_CREATE_TYPE_REGION origin rsize true).result =
        .errorInvalidBufferSize) ∧
    (rsize ≠ 0 → origin + rsize < sizeTCard → b.allocSize < origin + rsize →
      (urMemBufferPartition b UR_MEM_FLAG_READ_WRITE
          UR_BUFFER_CREATE_TYPE_REGION origin rsize true).result =
        .errorInvalidBufferSize) ∧
    (1 ≤ b.allocSize → b.allocSize + 1 < sizeTCard →
      (urMemBufferPartition b UR_MEM_FLAG_READ_WRITE
          UR_BUFFER_CREATE_TYPE_REGION (b.allocSize - 1) 2 true).result =
        .errorInvalidBufferSize) := by
  have hwo2 : ¬ (b.memFlags &&& UR_MEM_FLAG_WRITE_ONLY ≠ 0 ∧
      partitionFlags UR_MEM_FLAG_READ_WRITE &&&
        (UR_MEM_FLAG_READ_WRITE ||| UR_MEM_FLAG_READ_ONLY) ≠ 0) :=
    fun hc => hc.1 hwo
  have hro2 : ¬ (b.memFlags &&& UR_MEM_FLAG_READ_ONLY ≠ 0 ∧
      partitionFlags UR_MEM_FLAG_READ_WRITE &&&
        (UR_MEM_FLAG_READ_WRITE ||| UR_MEM_FLAG_WRITE_ONLY) ≠ 0) :=
    fun hc => hc.1 hro
  refine ⟨?_, ?_, ?_, ?_, ?_⟩
  · intro hS hSlt
    have hbound : (0 + b.allocSize) % sizeTCard ≤ b.allocSize := by
      rw [Nat.zero_add, Nat.mod_eq_of_lt hSlt]
    have hv := partitionValidate_none b UR_MEM_FLAG_READ_WRITE
      UR_BUFFER_CREATE_TYPE_REGION 0 b.allocSize (by decide) hbuf hsub
      (by decide) hwo2 hro2 rfl hS hbound hptr
    simp [urMemBufferPartition, hv]
  · have hv := partitionValidate_sizeZero b UR_MEM_FLAG_READ_WRITE
      UR_BUFFER_CREATE_TYPE_REGION origin (by decide) hbuf hsub
      (by decide) hwo2 hro2 rfl
    simp [urMemBufferPartition, hv]
  · intro hr hgt
    have hbound : ¬ ((origin + rsize) % sizeTCard ≤ b.allocSize) := by
      omega
    have hv := partitionValidate_boundFail b UR_MEM_FLAG_READ_WRITE
      UR_BUFFER_CREATE_TYPE_REGION origin rsize (by decide) hbuf hsub
      (by decide) hwo2 hro2 rfl hr hbound
    simp [urMemBufferPartition, hv]
  · intro hr hov hgt
    have hmod : (origin + rsize) % sizeTCard = origin + rsize :=
      Nat.mod_eq_of_lt hov
    have hbound : ¬ ((origin + rsize) % sizeTCard ≤ b.allocSize) := by
      omega
    have hv := partitionValidate_boundFail b UR_MEM_FLAG_READ_WRITE
      UR_BUFFER_CREATE_TYPE_REGION origin rsize (by decide) hbuf hsub
      (by decide) hwo2 hro2 rfl hr hbound
    simp [urMemBufferPartition, hv]
  · intro hS hSlt
    have hmod : (b.allocSize - 1 + 2) % sizeTCard = b.allocSize + 1 := by
      have h1 : b.allocSize - 1 + 2 = b.allocSize + 1 := by omega
      rw [h1, Nat.mod_eq_of_lt hSlt]
    have hbound : ¬ ((b.allocSize - 1 + 2) % sizeTCard ≤ b.allocSize) := by
      omega
    have hv := partitionValidate_boundFail b UR_MEM_FLAG_READ_WRITE
      UR_BUFFER_CREATE_TYPE_REGION (b.allocSize - 1) 2 (by decide) hbuf
      hsub (by decide) hwo2 hro2 rfl (by decide) hbound
    simp [urMemBufferPartition, hv]

theorem c5_amended_partition_bounds_witness :
    (urMemBufferPartition
        ⟨true, false, UR_MEM_FLAG_READ_WRITE, 16, 1000, none, 1⟩
        UR_MEM_FLAG_READ_WRITE UR_BUFFER_CREATE_TYPE_REGION 15 2
        true).result = .errorInvalidBufferSize := by
  have h := (c5_amended_partition_bounds
    ⟨true, false, UR_MEM_FLAG_READ_WRITE, 16, 1000, none, 1⟩ 15 2
    rfl rfl (by decide) (by decide) (by decide)).2.2.2.2
    (by decide) (by decide)
  simpa using h

/-- C6: once urMemBufferPartition reaches child construction, a failed
construction undoes the implicit parent retain (the parent count after
the failed call equals its value before) and publishes no child handle
(phMem is written with null); a successful construction leaves the parent
count exactly one higher. -/
theorem c6_partition_retain_balance (b : ParentBuffer)
    (flags bct origin rsize : Nat)
    (hmask : urMemFlagsOk flags)
    (hbuf : b.isBuffer = true) (hsub : b.isSubBuffer = false)
    (hhf : partitionFlags flags &&& (UR_MEM_FLAG_ALLOC_COPY_HOST_POINTER |||
      UR_MEM_FLAG_ALLOC_HOST_POINTER ||| UR_MEM_FLAG_USE_HOST_POINTER) = 0)
    (hwo : ¬ (b.memFlags &&& UR_MEM_FLAG_WRITE_ONLY ≠ 0 ∧
      partitionFlags flags &&&
        (UR_MEM_FLAG_READ_WRITE ||| UR_MEM_FLAG_READ_ONLY) ≠ 0))
    (hro : ¬ (b.memFlags &&& UR_MEM_FLAG_READ_ONLY ≠ 0 ∧
      partitionFlags flags &&&
        (UR_MEM_FLAG_READ_WRITE ||| UR_MEM_FLAG_WRITE_ONLY) ≠ 0))
    (hbct : bct = UR_BUFFER_CREATE_TYPE_REGION)
    (hsize : rsize ≠ 0)
    (hbound : (origin + rsize) % sizeTCard ≤ b.allocSize)
    (hptr : b.ptr ≠ 0) :
    ((urMemBufferPartition b flags bct origin rsize false).result =
        .errorOutOfHostMemory ∧
     (urMemBufferPartition b flags bct origin rsize false).phMem =
        .written none ∧
     (urMemBufferPartition b flags bct origin rsize false).parentRefCount =
        b.refCount) ∧
    ((urMemBufferPartition b flags bct origin rsize true).result =
        .success ∧
     (urMemBufferPartition b flags bct origin rsize true).parentRefCount =
        b.refCount + 1) := by
  have hv := partitionValidate_none b flags bct origin rsize hmask hbuf
    hsub hhf hwo hro hbct hsize hbound hptr
  refine ⟨⟨?_, ?_, ?_⟩, ?_, ?_⟩ <;> simp [urMemBufferPartition, hv]

theorem c6_partition_retain_balance_witness :
    ((urMemBufferPartition ⟨true, false, 1, 16, 1000, none, 3⟩ 1 0 4 8
        false).parentRefCount = 3 ∧
     (urMemBufferPartition ⟨true, false, 1, 16, 1000, none, 3⟩ 1 0 4 8
        false).phMem = .written none) ∧
    (urMemBufferPartition ⟨true, false, 1, 16, 1000, none, 3⟩ 1 0 4 8
        true).parentRefCount = 4 := by
  have h := c6_partition_retain_balance
    ⟨true, false, 1, 16, 1000, none, 3⟩ 1 0 4 8
    (by decide) rfl rfl (by decide) (by decide) (by decide) rfl
    (by decide) (by decide) (by decide)
  exact ⟨⟨h.1.2.2, h.1.2.1⟩, h.2.2⟩

/-- C10: a zero flags word passed to urMemBufferPartition is treated as a
request for read-write access: any child the call publishes carries the
READ_WRITE flag, and a zero-flags partition of a write-only or read-only
parent fails with the invalid-value error instead of inheriting the
parent access class. -/
theorem c10_zero_flags_default_read_write (b : ParentBuffer)
    (bct origin rsize : Nat) (allocObjOk : Bool)
    (hbuf : b.isBuffer = true) (hsub : b.isSubBuffer = false) :
    (∀ sb : SubBuffer,
      (urMemBufferPartition b 0 bct origin rsize allocObjOk).phMem =
          .written (some sb) →
      sb.flags = UR_MEM_FLAG_READ_WRITE) ∧
    (b.memFlags &&& UR_MEM_FLAG_WRITE_ONLY ≠ 0 →
      (urMemBufferPartition b 0 bct origin rsize allocObjOk).result =
        .errorInvalidValue) ∧
    (b.memFlags &&& UR_MEM_FLAG_READ_ONLY ≠ 0 →
      (urMemBufferPartition b 0 bct origin rsize allocObjOk).result =
        .errorInvalidValue) := by
  refine ⟨?_, ?_, ?_⟩
  · intro sb h
    unfold urMemBufferPartition at h
    cases hv : partitionValidate b 0 bct origin rsize with
    | some e => rw [hv] at h; exact PtrWrite.noConfusion h
    | none =>
        rw [hv] at h
        by_cases hok : allocObjOk = true
        · rw [if_pos hok] at h
          injection h with h2
          injection h2 with h3
          rw [← h3]
          rfl
        · rw [if_neg hok] at h
          injection h with h2
          exact Option.noConfusion h2
  · intro hw
    have hv : partitionValidate b 0 bct origin rsize =
        some .errorInvalidValue := by
      unfold partitionValidate
      rw [if_neg (not_not_intro (by decide)), if_neg (by simp [hbuf]),
        if_neg (by simp [hsub]), if_neg (not_not_intro (by decide)),
        if_pos ⟨hw, by decide⟩]
    simp [urMemBufferPartition, hv]
  · intro hr
    have hv : partitionValidate b 0 bct origin rsize =
        some .errorInvalidValue := by
      unfold partitionValidate
      rw [if_neg (not_not_intro (by decide)), if_neg (by simp [hbuf]),
        if_neg (by simp [hsub]), if_neg (not_not_intro (by decide))]
      by_cases hw : b.memFlags &&& UR_MEM_FLAG_WRITE_ONLY ≠ 0 ∧
          partitionFlags 0 &&&
            (UR_MEM_FLAG_READ_WRITE ||| UR_MEM_FLAG_READ_ONLY) ≠ 0
      · rw [if_pos hw]
      · rw [if_neg hw, if_pos ⟨hr, by decide⟩]
    simp [urMemBufferPartition, hv]

theorem c10_zero_flags_default_read_write_witness :
    (urMemBufferPartition
        ⟨true, false, UR_MEM_FLAG_WRITE_ONLY, 16, 1000, none, 1⟩
        0 0 0 8 true).result = .errorInvalidValue := by
  have h := (c10_zero_flags_default_read_write
    ⟨true, false, UR_MEM_FLAG_WRITE_ONLY, 16, 1000, none, 1⟩
    0 0 8 true rfl rfl).2.1 (by decide)
  simpa using h

/-- C7: under valid flags, host-pointer precondition, structure tag and
pitch preconditions, urMemImageCreate fails with the
invalid-image-format-descriptor error when the mip-level count or the
sample count is nonzero or when the channel type is unmapped, and fails
with the unsupported-enumeration error when the channel order is not
RGBA; each of these validation failures returns with no native call
performed, in particular before any native array is created. -/
theorem c7_image_validation_failures (flags : Nat) (order : ChannelOrder)
    (ctype : ChannelType) (desc : ImageDesc) (hostGiven : Bool)
    (o : ImageNativeOracle)
    (hmask : urMemFlagsOk flags)
    (hhp : ¬ (flags &&& (UR_MEM_FLAG_ALLOC_COPY_HOST_POINTER |||
      UR_MEM_FLAG_USE_HOST_POINTER) ≠ 0 ∧ hostGiven = false))
    (hstype : desc.stypeOk = true)
    (hrow : ¬ (hostGiven = false ∧ desc.rowPitch ≠ 0))
    (hslice : ¬ (hostGiven = false ∧ desc.slicePitch ≠ 0)) :
    (desc.numMipLevel ≠ 0 →
      urMemImageCreate flags order ctype desc hostGiven o =
        { result := .errorInvalidImageFormatDescriptor, arrayDesc := none,
          events := [] }) ∧
    (desc.numMipLevel = 0 → desc.numSamples ≠ 0 →
      urMemImageCreate flags order ctype desc hostGiven o =
        { result := .errorInvalidImageFormatDescriptor, arrayDesc := none,
          events := [] }) ∧
    (desc.numMipLevel = 0 → desc.numSamples = 0 →
      order ≠ ChannelOrder.rgba →
      urMemImageCreate flags order ctype desc hostGiven o =
        { result := .errorUnsupportedEnumeration, arrayDesc := none,
          events := [] }) ∧
    (desc.numMipLevel = 0 → desc.numSamples = 0 →
      order = ChannelOrder.rgba → channelTypeMap ctype = none →
      urMemImageCreate flags order ctype desc hostGiven o =
        { result := .errorInvalidImageFormatDescriptor, arrayDesc := none,
          events := [] }) := by
  refine ⟨?_, ?_, ?_, ?_⟩
  · intro hmip
    have hv : imageValidate flags order desc hostGiven =
        some .errorInvalidImageFormatDescriptor := by
      unfold imageValidate
      rw [if_neg (not_not_intro hmask), if_neg hhp,
        if_neg (by simp [hstype]), if_pos hmip]
    simp [urMemImageCreate, hv]
  · intro hmip hsamp
    have hv : imageValidate flags order desc hostGiven =
        some .errorInvalidImageFormatDescriptor := by
      unfold imageValidate
      rw [if_neg (not_not_intro hmask), if_neg hhp,
        if_neg (by simp [hstype]), if_neg (not_not_intro hmip),
        if_pos hsamp]
    simp [urMemImageCreate, hv]
  · intro hmip hsamp horder
    have hv : imageValidate flags order desc hostGiven =
        some .errorUnsupportedEnumeration := by
      unfold imageValidate
      rw [if_neg (not_not_intro hmask), if_neg hhp,
        if_neg (by simp [hstype]), if_neg (not_not_intro hmip),
        if_neg (not_not_intro hsamp), if_neg hrow, if_neg hslice,
        if_pos horder]
    simp [urMemImageCreate, hv]
  · intro hmip hsamp horder hct
    have hv : imageValidate flags order desc hostGiven = none := by
      unfold imageValidate
      rw [if_neg (not_not_intro hmask), if_neg hhp,
        if_neg (by simp [hstype]), if_neg (not_not_intro hmip),
        if_neg (not_not_intro hsamp), if_neg hrow, if_neg hslice,
        if_neg (not_not_intro horder)]
    simp [urMemImageCreate, hv, hct]

theorem c7_image_validation_failures_witness :
    urMemImageCreate 0 ChannelOrder.rgba ChannelType.unsignedInt8
        { stypeOk := true, dim := .two, width := 4, height := 4,
          depth := 1, numMipLevel := 1, numSamples := 0, rowPitch := 0,
          slicePitch := 0 } true
        { arrayCreateOk := true, copyOk := true, surfaceCreateOk := true,
          allocObjOk := true } =
      { result := .errorInvalidImageFormatDescriptor, arrayDesc := none,
        events := [] } := by
  have h := (c7_image_validation_failures 0 ChannelOrder.rgba
    ChannelType.unsignedInt8
    { stypeOk := true, dim := .two, width := 4, height := 4, depth := 1,
      numMipLevel := 1, numSamples := 0, rowPitch := 0, slicePitch := 0 }
    true
    { arrayCreateOk := true, copyOk := true, surfaceCreateOk := true,
      allocObjOk := true }
    (by decide) (by decide) rfl (by decide) (by decide)).1 (by decide)
  exact h

/-- C9: whenever urMemImageCreate reaches native array creation, the
descriptor it passes has channel count 4, and its height and depth are
set by dimensionality: zero and zero for a 1D image, the descriptor
height and zero for a 2D image, the descriptor height and depth for a 3D
image. -/
theorem c9_array_descriptor_shape (flags : Nat) (order : ChannelOrder)
    (ctype : ChannelType) (desc : ImageDesc) (hostGiven : Bool)
    (o : ImageNativeOracle) (d : HipArrayDescriptor)
    (h : (urMemImageCreate flags order ctype desc hostGiven o).arrayDesc =
      some d) :
    d.NumChannels = 4 ∧
    (desc.dim = .one → d.Height = 0 ∧ d.Depth = 0) ∧
    (desc.dim = .two → d.Height = desc.height ∧ d.Depth = 0) ∧
    (desc.dim = .three →
      d.Height = desc.height ∧ d.Depth = desc.depth) := by
  rcases urMemImageCreate_arrayDesc_cases flags order ctype desc hostGiven
    o with hnone | ⟨fmt, psz, hct, hsome⟩
  · rw [h] at hnone
    exact Option.noConfusion hnone
  · rw [h] at hsome
    injection hsome with hd
    subst hd
    refine ⟨?_, ?_, ?_, ?_⟩
    · cases hdim : desc.dim <;> simp [buildArrayDescriptor, hdim]
    · intro hdim; simp [buildArrayDescriptor, hdim]
    · intro hdim; simp [buildArrayDescriptor, hdim]
    · intro hdim; simp [buildArrayDescriptor, hdim]

theorem c9_array_descriptor_shape_witness :
    ({ NumChannels := 4, Flags := 0, Width := 4, Height := 4, Depth := 0,
       Format := .unsignedInt8 } : HipArrayDescriptor).NumChannels = 4 ∧
    (({ stypeOk := true, dim := .two, width := 4, height := 4, depth := 1,
        numMipLevel := 0, numSamples := 0, rowPitch := 0,
        slicePitch := 0 } : ImageDesc).dim = .two →
      ({ NumChannels := 4, Flags := 0, Width := 4, Height := 4, Depth := 0,
         Format := .unsignedInt8 } : HipArrayDescriptor).Height = 4 ∧
      ({ NumChannels := 4, Flags := 0, Width := 4, Height := 4, Depth := 0,
         Format := .unsignedInt8 } : HipArrayDescriptor).Depth = 0) := by
  have h := c9_array_descriptor_shape 0 ChannelOrder.rgba
    ChannelType.unsignedInt8
    { stypeOk := true, dim := .two, width := 4, height := 4, depth := 1,
      numMipLevel := 0, numSamples := 0, rowPitch := 0, slicePitch := 0 }
    true
    { arrayCreateOk := true, copyOk := true, surfaceCreateOk := true,
      allocObjOk := true }
    { NumChannels := 4, Flags := 0, Width := 4, Height := 4, Depth := 0,
      Format := .unsignedInt8 }
    (by decide)
  exact ⟨h.1, h.2.2.1⟩

/-- C8: the size query returns, for a buffer, the native allocation
address-range size reported by the driver, and, for a surface, pixel
size times channel count times width times height times depth where each
dimension reported as zero is replaced by 1. -/
theorem c8_size_query (m : MemContent) (o : QueryOracle) :
    (∀ p s, m = .buffer p → o.addressRangeSize = some s →
      urMemGetInfoSize m o = .ok s) ∧
    (∀ a d, m = .surface a → o.arrayDescriptor = some d →
      urMemGetInfoSize m o =
        .ok (GetHipFormatPixelSize d.Format * d.NumChannels *
          max 1 d.Width * max 1 d.Height * max 1 d.Depth)) := by
  constructor
  · intro p s hm ho
    subst hm
    simp [urMemGetInfoSize, ho]
  · intro a d hm ho
    subst hm
    simp only [urMemGetInfoSize, ho, ite_zero_one_eq_max]

theorem c8_size_query_witness :
    urMemGetInfoSize (.surface 7)
        { addressRangeSize := none,
          arrayDescriptor := some
            { NumChannels := 4, Flags := 0, Width := 0, Height := 5,
              Depth := 0, Format := .float32 } } =
      .ok 80 := by
  have h := (c8_size_query (.surface 7)
    { addressRangeSize := none,
      arrayDescriptor := some
        { NumChannels := 4, Flags := 0, Width := 0, Height := 5,
          Depth := 0, Format := .float32 } }).2 7
    { NumChannels := 4, Flags := 0, Width := 0, Height := 5, Depth := 0,
      Format := .float32 } rfl rfl
  simpa using h

end UrHip
